import Mathlib

/-!
Verification development for the locness-datawriter repository (src/main.py).

The embedding follows the source classes:
* `DynamoDBDataReader.get_new_data` (watermark tracking, scan pagination, error
  handling) — `Locness.get_new_data` / `Locness.scanAll`;
* `CSVDataWriter` (hourly bucket, CSV rendering) — `Locness.WriterState`,
  `Locness.add_data`, `Locness.write_hour_data`, `Locness.get_current_csv_content`,
  `Locness.get_current_filename`;
* `GoogleDriveUploader` (filename-to-id cache, find/create/update) —
  `Locness.DriveState`, `Locness.find_existing_file`, `Locness.upload_or_update_csv`;
* `DataWriterApp` (driver ticks and shutdown) — `Locness.read_and_write_data`,
  `Locness.stop`.

Embedding conventions:
* A DynamoDB item / Python dict is an association list from field name to the
  rendered (string) form of its scalar value.
* Timestamps stay strings; DynamoDB's FilterExpression comparison of ISO-8601
  strings is embedded as genuine lexicographic comparison (`strLt`), as in the
  source (the spec notes lexicographic order of these strings equals
  chronological order).
* Clock reads (`datetime.now()` values) are explicit inputs: `oneHourAgo` and
  `currentTimestamp` for the reader's two reads, `currentHourLabel` for the
  writer's local-clock hour label.
* External I/O is explicit: the sequence of scan pages (with `none` marking a
  transport/query error raised by a scan call), the remote Drive store contents,
  and boolean fault flags for a CSV-generation exception (`renderErr`) and a
  Drive create/update exception (`remoteErr`).  The source's
  catch-log-return-fallback handlers become the corresponding fallback branches.
* Methods that can mutate instance state are embedded in state-passing style;
  a method body with no assignment to `self` returns its input state unchanged.
-/

namespace Locness

/-- Lexicographic order on character lists: the comparison DynamoDB applies to
the string timestamp attribute in the scan FilterExpression. -/
def charsLt : List Char → List Char → Bool
  | [], [] => false
  | [], _ :: _ => true
  | _ :: _, [] => false
  | a :: as, b :: bs => if a < b then true else if b < a then false else charsLt as bs

/-- Lexicographic strict order on strings (timestamp comparison). -/
def strLt (a b : String) : Bool := charsLt a.data b.data

/-- A row: opaque mapping from field name to rendered scalar value
(spec section 3; a DynamoDB item / Python dict). -/
abbrev Row := List (String × String)

/-- The scan filter `#ts > :last_ts AND #ts <= :current_ts` on the
`datetime_utc` attribute (main.py lines 73-80); rows lacking the attribute
never satisfy the condition. -/
def inWindow (lastTs currentTs : String) (r : Row) : Bool :=
  match r.lookup "datetime_utc" with
  | some ts => strLt lastTs ts && !strLt currentTs ts
  | none => false

/-- Mutable state of `DynamoDBDataReader`: the watermark field
`last_read_timestamp`, `None` before the first fetch. -/
structure ReaderState where
  last_read_timestamp : Option String
deriving DecidableEq

/-- One page returned by a `table.scan` call; `none` models the call raising a
transport/query error (`BotoCoreError`/`ClientError`). -/
abbrev ScanPage := Option (List Row)

/-- The pagination loop of `get_new_data` (main.py lines 72-96): issue scan
calls following `LastEvaluatedKey` continuations, filter each page with
`inWindow`, and concatenate the pages in page order.  An error on any scan
call aborts the whole fetch (`none`), discarding pages already fetched. -/
def scanAll (lastTs currentTs : String) : List ScanPage → Option (List Row)
  | [] => some []
  | none :: _ => none
  | some page :: rest =>
    match scanAll lastTs currentTs rest with
    | none => none
    | some items => some (page.filter (inWindow lastTs currentTs) ++ items)

/-- `DynamoDBDataReader.get_new_data` (main.py lines 56-111).  On entry, an
uninitialized watermark is set to `oneHourAgo` (the first clock read minus one
hour, line 63).  The scan window is `(lastTs, currentTimestamp]`.  On success
the watermark becomes `currentTimestamp` (the capture time, line 99); on a
scan error the `except` handler returns `[]` and the watermark keeps the value
it had after initialization. -/
def get_new_data (st : ReaderState) (oneHourAgo currentTimestamp : String)
    (pages : List ScanPage) : List Row × ReaderState :=
  let lastTs := st.last_read_timestamp.getD oneHourAgo
  match scanAll lastTs currentTimestamp pages with
  | none => ([], ⟨some lastTs⟩)
  | some items => (items, ⟨some currentTimestamp⟩)

/-- Accumulate field names in first-seen order (pandas column-union order for
a list of dicts). -/
def addKeys (acc : List String) (ks : List String) : List String :=
  ks.foldl (fun a k => if k ∈ a then a else a ++ [k]) acc

/-- Header of `pd.DataFrame(rows)`: union of field names over all rows, in
first-seen order. -/
def headerUnion (rows : List Row) : List String :=
  rows.foldl (fun acc r => addKeys acc (r.map Prod.fst)) []

/-- Rendered cell for field `k` of row `r`: empty string when the row lacks
the field (pandas NaN rendered as empty by `to_csv`). -/
def cellOf (r : Row) (k : String) : String := (r.lookup k).getD ""

/-- One comma-delimited CSV line. -/
def csvLine (cells : List String) : String := String.intercalate "," cells

/-- `df.to_csv(index=False)` over the accumulated rows: header line then one
line per row, newline-terminated. -/
def to_csv (rows : List Row) : String :=
  let hdr := headerUnion rows
  csvLine hdr ++ "\n" ++ String.join (rows.map fun r => csvLine (hdr.map (cellOf r)) ++ "\n")

/-- Mutable state of `CSVDataWriter`: the configured filename head `namePfx`
(source field `name_prefix`, default "locness_data"), the stored hour label
`current_hour` and the bucket `current_hour_data`.  The source also stores an
unused `path_prefix` setting, omitted here since no method reads it. -/
structure WriterState where
  namePfx : String
  current_hour : Option String
  current_hour_data : List Row
deriving DecidableEq

/-- `CSVDataWriter.add_data` (main.py lines 318-332): no-op on empty input;
when the computed current hour label differs from the stored one, the stored
label is replaced and the bucket cleared; then the incoming rows are appended
in order. -/
def add_data (st : WriterState) (currentHourLabel : String) (data : List Row) :
    WriterState :=
  if data = [] then st
  else if st.current_hour = some currentHourLabel then
    ⟨st.namePfx, some currentHourLabel, st.current_hour_data ++ data⟩
  else
    ⟨st.namePfx, some currentHourLabel, data⟩

/-- `CSVDataWriter._write_hour_data` (main.py lines 334-351): `None` for an
empty bucket; otherwise the rendered CSV, unless CSV generation raises
(`renderErr`), in which case the `except` handler returns `None`. -/
def write_hour_data (st : WriterState) (renderErr : Bool) : Option String :=
  if st.current_hour_data = [] then none
  else if renderErr then none
  else some (to_csv st.current_hour_data)

/-- `CSVDataWriter.get_current_csv_content` (main.py lines 359-361), in
state-passing form: the body assigns nothing to `self`, so the state comes
back unchanged alongside the rendered content. -/
def get_current_csv_content (st : WriterState) (renderErr : Bool) :
    Option String × WriterState :=
  (write_hour_data st renderErr, st)

/-- `CSVDataWriter.get_current_filename` (main.py lines 353-357). -/
def get_current_filename (st : WriterState) (currentHourLabel : String) : String :=
  match st.current_hour with
  | some h => st.namePfx ++ "_" ++ h ++ ".csv"
  | none => st.namePfx ++ "_" ++ currentHourLabel ++ ".csv"

/-- A file on the remote Drive store: identifier, name, content, trashed flag
(the search query requires `trashed=false`). -/
structure RemoteFile where
  id : Nat
  name : String
  content : String
  trashed : Bool
deriving DecidableEq

/-- State touched by `GoogleDriveUploader`: the remote store contents (external
collaborator state), the identifier the store will assign to the next created
file, and the instance's `file_cache` dict mapping filename to file id (a cons
onto the association list models a dict overwrite). -/
structure DriveState where
  store : List RemoteFile
  nextId : Nat
  file_cache : List (String × Nat)
deriving DecidableEq

/-- The Drive search condition `name='{filename}' and trashed=false`
(main.py line 201); parent-folder and shared-drive scoping only narrow the
container searched and are not modelled. -/
def liveNamed (filename : String) (f : RemoteFile) : Bool :=
  f.name == filename && !f.trashed

/-- Result of `_find_existing_file`: the id found (if any), the cache after
the call, and whether a remote list query was issued (false on a cache hit). -/
structure FindResult where
  fileId : Option Nat
  file_cache : List (String × Nat)
  queried : Bool
deriving DecidableEq

/-- `GoogleDriveUploader._find_existing_file` (main.py lines 193-231): answer
from the cache when present; otherwise query the remote store, caching the id
of the first match.  When the query finds nothing the method returns `None`
without touching the cache. -/
def find_existing_file (cache : List (String × Nat)) (store : List RemoteFile)
    (filename : String) : FindResult :=
  match cache.lookup filename with
  | some fid => ⟨some fid, cache, false⟩
  | none =>
    match store.filter (liveNamed filename) with
    | [] => ⟨none, cache, true⟩
    | f :: _ => ⟨some f.id, (filename, f.id) :: cache, true⟩

/-- Content replacement performed by `files().update` on the file with the
given id; every other file is untouched. -/
def setContent (fid : Nat) (c : String) (f : RemoteFile) : RemoteFile :=
  if f.id = fid then ⟨f.id, f.name, c, f.trashed⟩ else f

/-- `GoogleDriveUploader.upload_or_update_csv` (main.py lines 233-302): find
the existing file; if found, replace its content in place (id unchanged); if
not found, create a new file with a fresh id and cache the id.  `remoteErr`
models the Drive create/update call raising: the `except` handler returns
`None` with the remote store unmodified (the cache keeps whatever
`_find_existing_file` wrote, since `self.file_cache` was already mutated). -/
def upload_or_update_csv (st : DriveState) (csv_content filename : String)
    (remoteErr : Bool) : Option Nat × DriveState :=
  let fr := find_existing_file st.file_cache st.store filename
  if remoteErr then (none, ⟨st.store, st.nextId, fr.file_cache⟩)
  else
    match fr.fileId with
    | some fid =>
      (some fid, ⟨st.store.map (setContent fid csv_content), st.nextId, fr.file_cache⟩)
    | none =>
      (some st.nextId,
       ⟨st.store ++ [⟨st.nextId, filename, csv_content, false⟩], st.nextId + 1,
        (filename, st.nextId) :: fr.file_cache⟩)

/-- A sync attempt issued to the uploader: content and filename passed to
`upload_or_update_csv`. -/
structure SyncCall where
  content : String
  filename : String
deriving DecidableEq

/-- State of `DataWriterApp`: the three component states plus the
`is_running` flag. -/
structure AppState where
  reader : ReaderState
  writer : WriterState
  drive : DriveState
  is_running : Bool
deriving DecidableEq

/-- `DataWriterApp.read_and_write_data` (main.py lines 377-391), one poll+sync
tick: fetch new rows; if none, do nothing further; otherwise add them to the
bucket, render the bucket, and when rendering yields content, issue exactly
one sync attempt (whose own result is ignored, line 389).  Returns the new
state and the list of sync attempts made during the tick. -/
def read_and_write_data (st : AppState)
    (oneHourAgo currentTimestamp currentHourLabel : String)
    (pages : List ScanPage) (renderErr remoteErr : Bool) :
    AppState × List SyncCall :=
  let fetched := get_new_data st.reader oneHourAgo currentTimestamp pages
  if fetched.1 = [] then (⟨fetched.2, st.writer, st.drive, st.is_running⟩, [])
  else
    let writer' := add_data st.writer currentHourLabel fetched.1
    match (get_current_csv_content writer' renderErr).1 with
    | none => (⟨fetched.2, writer', st.drive, st.is_running⟩, [])
    | some c =>
      let fn := get_current_filename writer' currentHourLabel
      let upl := upload_or_update_csv st.drive c fn remoteErr
      (⟨fetched.2, writer', upl.2, st.is_running⟩, [⟨c, fn⟩])

/-- Observable shutdown events, in order of occurrence: sync attempts made
during `stop`, then the final "Application stopped" report. -/
inductive Event where
  | sync (content filename : String)
  | stopped
deriving DecidableEq

/-- `DataWriterApp.stop` (main.py lines 424-435): clear `is_running`, render
the current bucket, and when rendering yields content, issue one final sync
attempt before reporting stopped. -/
def stop (st : AppState) (currentHourLabel : String) (renderErr remoteErr : Bool) :
    AppState × List Event :=
  match (get_current_csv_content st.writer renderErr).1 with
  | none => (⟨st.reader, st.writer, st.drive, false⟩, [Event.stopped])
  | some c =>
    let fn := get_current_filename st.writer currentHourLabel
    let upl := upload_or_update_csv st.drive c fn remoteErr
    (⟨st.reader, st.writer, upl.2, false⟩, [Event.sync c fn, Event.stopped])

/-- Concrete application state with an empty bucket, used by witnesses. -/
def exApp : AppState := ⟨⟨some "b"⟩, ⟨"p", some "h", []⟩, ⟨[], 0, []⟩, true⟩

/-- Concrete application state holding one unflushed row, used by witnesses. -/
def exAppRows : AppState := ⟨⟨some "b"⟩, ⟨"p", some "h", [[("a", "1")]]⟩, ⟨[], 0, []⟩, true⟩

/-- Concrete single-page scan result used by witnesses (its row's timestamp
lies in the window `("b", "d"]`). -/
def exPages1 : List ScanPage := [some [[("datetime_utc", "c")]]]

/-- Concrete single-page scan result used by witnesses (its row's timestamp
lies in the window `("d", "f"]`). -/
def exPages2 : List ScanPage := [some [[("datetime_utc", "e")]]]

/-! Helper lemmas shared by the claim theorems. -/

theorem charsLt_irrefl (l : List Char) : charsLt l l = false := by
  induction l with
  | nil => rfl
  | cons a as ih => simp [charsLt, lt_irrefl, ih]

theorem strLt_irrefl (s : String) : strLt s s = false := charsLt_irrefl s.data

theorem scanAll_sound (lastTs currentTs : String) :
    ∀ (pages : List ScanPage) (items : List Row),
      scanAll lastTs currentTs pages = some items →
      ∀ r ∈ items, inWindow lastTs currentTs r = true := by
  intro pages
  induction pages with
  | nil =>
    intro items h r hr
    simp only [scanAll, Option.some.injEq] at h
    subst h
    simp at hr
  | cons p ps ih =>
    intro items h r hr
    cases p with
    | none => simp [scanAll] at h
    | some page =>
      simp only [scanAll] at h
      cases hs : scanAll lastTs currentTs ps with
      | none => rw [hs] at h; simp at h
      | some its =>
        rw [hs] at h
        simp only [Option.some.injEq] at h
        subst h
        rcases List.mem_append.mp hr with h1 | h2
        · exact (List.mem_filter.mp h1).2
        · exact ih its hs r h2

theorem scanAll_map_some (lastTs currentTs : String) (pages : List (List Row)) :
    scanAll lastTs currentTs (pages.map some)
      = some ((pages.map fun p => p.filter (inWindow lastTs currentTs)).flatten) := by
  induction pages with
  | nil => rfl
  | cons p ps ih => simp [scanAll, ih]

theorem add_data_nil (st : WriterState) (h : String) : add_data st h [] = st := by
  simp [add_data]

theorem add_data_same (st : WriterState) (h : String) (data : List Row)
    (hne : data ≠ []) (hh : st.current_hour = some h) :
    add_data st h data = ⟨st.namePfx, some h, st.current_hour_data ++ data⟩ := by
  simp [add_data, hne, hh]

theorem add_data_new (st : WriterState) (h : String) (data : List Row)
    (hne : data ≠ []) (hh : st.current_hour ≠ some h) :
    add_data st h data = ⟨st.namePfx, some h, data⟩ := by
  simp [add_data, hne, hh]

theorem write_hour_data_err (st : WriterState) : write_hour_data st true = none := by
  unfold write_hour_data
  split <;> rfl

theorem liveNamed_setContent (fn : String) (fid : Nat) (c : String) (f : RemoteFile) :
    liveNamed fn (setContent fid c f) = liveNamed fn f := by
  unfold setContent
  split <;> rfl

theorem filter_map_setContent (fn : String) (fid : Nat) (c : String) (l : List RemoteFile) :
    (l.map (setContent fid c)).filter (liveNamed fn)
      = (l.filter (liveNamed fn)).map (setContent fid c) := by
  induction l with
  | nil => rfl
  | cons a l ih =>
    cases hla : liveNamed fn a with
    | false =>
      simp [List.filter_cons, liveNamed_setContent, hla, ih]
    | true =>
      simp [List.filter_cons, liveNamed_setContent, hla, ih]

/-! The claims. -/

/-- Claim C2: for every sequence of fetch cycles the watermark is monotonically
non-decreasing; each fetch queries the half-open window
`(previousWatermark, captureTime]` where the capture time is the wall-clock
time read at the start of the fetch; on success the new watermark equals that
capture time (not the maximum row timestamp).  Stated for one fetch step with
an initialized watermark `w`: under clock monotonicity
(`currentTimestamp` not before `w`), the new watermark `v` satisfies
`strLt v w = false` (not earlier than `w`); every returned row's
`datetime_utc` lies strictly above `w` and not above `currentTimestamp`; and
whenever the scan succeeds the watermark becomes exactly `currentTimestamp`,
whatever the row timestamps were. -/
theorem C2_theorem (st : ReaderState) (w oneHourAgo currentTimestamp : String)
    (pages : List ScanPage)
    (hw : st.last_read_timestamp = some w)
    (hclock : strLt currentTimestamp w = false) :
    (∃ v, ((get_new_data st oneHourAgo currentTimestamp pages).2).last_read_timestamp
        = some v ∧ strLt v w = false) ∧
    (∀ r ∈ (get_new_data st oneHourAgo currentTimestamp pages).1,
       ∃ ts, r.lookup "datetime_utc" = some ts ∧
         strLt w ts = true ∧ strLt currentTimestamp ts = false) ∧
    (∀ items, scanAll w currentTimestamp pages = some items →
       ((get_new_data st oneHourAgo currentTimestamp pages).2).last_read_timestamp
         = some currentTimestamp) := by
  simp only [get_new_data, hw, Option.getD_some]
  cases hs : scanAll w currentTimestamp pages with
  | none =>
    refine ⟨⟨w, rfl, strLt_irrefl w⟩, ?_, ?_⟩
    · intro r hr
      simp at hr
    · intro items hitems
      cases hitems
  | some items =>
    refine ⟨⟨currentTimestamp, rfl, hclock⟩, ?_, fun _ _ => rfl⟩
    intro r hr
    have hmem := scanAll_sound w currentTimestamp pages items hs r hr
    unfold inWindow at hmem
    cases hts : r.lookup "datetime_utc" with
    | none => rw [hts] at hmem; cases hmem
    | some ts =>
      rw [hts] at hmem
      simp only [Bool.and_eq_true, Bool.not_eq_true'] at hmem
      exact ⟨ts, rfl, hmem.1, hmem.2⟩

theorem C2_witness :
    (⟨some "b"⟩ : ReaderState).last_read_timestamp = some "b" ∧
    strLt "b" "b" = false ∧
    (∃ v, ((get_new_data ⟨some "b"⟩ "a" "b" []).2).last_read_timestamp = some v ∧
       strLt v "b" = false) :=
  ⟨rfl, by decide, (C2_theorem ⟨some "b"⟩ "b" "a" "b" [] rfl (by decide)).1⟩

/-- Claim C3: on every row-source error during a fetch cycle (including a
mid-pagination error) `get_new_data` returns an empty row set, leaves the
watermark at its value before the call (so the next cycle retries the same
window), and discards partial pages already fetched.  The error is caught by
the handler and never propagated: the embedded function is total, returning
the fallback value.  The second conjunct also covers the uninitialized first
call, where the value in effect for the fetch is the defaulted `oneHourAgo`
lower bound. -/
theorem C3_theorem (st : ReaderState) (oneHourAgo currentTimestamp : String)
    (pages : List ScanPage)
    (herr : scanAll (st.last_read_timestamp.getD oneHourAgo) currentTimestamp pages
      = none) :
    (get_new_data st oneHourAgo currentTimestamp pages).1 = [] ∧
    ((get_new_data st oneHourAgo currentTimestamp pages).2).last_read_timestamp
      = some (st.last_read_timestamp.getD oneHourAgo) ∧
    (∀ w, st.last_read_timestamp = some w →
       get_new_data st oneHourAgo currentTimestamp pages = ([], ⟨some w⟩)) := by
  refine ⟨?_, ?_, ?_⟩
  · simp [get_new_data, herr]
  · simp [get_new_data, herr]
  · intro w hw
    rw [hw] at herr
    simp only [Option.getD_some] at herr
    simp [get_new_data, hw, herr]

theorem C3_witness :
    scanAll ((⟨some "b"⟩ : ReaderState).last_read_timestamp.getD "a") "c"
        [some [[("datetime_utc", "x")]], none] = none ∧
    get_new_data ⟨some "b"⟩ "a" "c" [some [[("datetime_utc", "x")]], none]
      = ([], ⟨some "b"⟩) :=
  ⟨rfl, (C3_theorem ⟨some "b"⟩ "a" "c" [some [[("datetime_utc", "x")]], none] rfl).2.2
    "b" rfl⟩

/-- Claim C8: on every successful fetch the adapter follows pagination
continuations until the source reports no more pages and returns the
concatenation of all pages, in page order, as a single result.  A fetch whose
scan calls all succeed is a `pages.map some` input; the result is exactly the
in-window rows of each page, page by page, flattened in order, with the
watermark advanced to the capture time. -/
theorem C8_theorem (st : ReaderState) (oneHourAgo currentTimestamp : String)
    (pages : List (List Row)) :
    get_new_data st oneHourAgo currentTimestamp (pages.map some)
      = ((pages.map fun p =>
            p.filter
              (inWindow (st.last_read_timestamp.getD oneHourAgo) currentTimestamp)).flatten,
         ⟨some currentTimestamp⟩) := by
  simp [get_new_data, scanAll_map_some]

/-- Claim C4: `get_current_csv_content` returns absent when the current bucket
has zero rows; otherwise it returns a delimited table whose header is the
union of field names over all rows in the bucket in first-seen order, with
empty cells for missing fields; in particular, for the bucket
`[{a:1,b:2},{a:3,c:4}]` the output has header `a,b,c` and data rows `1,2,`
and `3,,4`.  Scalar values are embedded by their rendered string form. -/
theorem C4_theorem :
    (∀ (namePfx : String) (hour : Option String) (renderErr : Bool),
       (get_current_csv_content ⟨namePfx, hour, []⟩ renderErr).1 = none) ∧
    (get_current_csv_content
        ⟨"locness_data", some "20240101_00",
         [[("a", "1"), ("b", "2")], [("a", "3"), ("c", "4")]]⟩ false).1
      = some "a,b,c\n1,2,\n3,,4\n" := by
  constructor
  · intro namePfx hour renderErr
    rfl
  · decide

/-- Claim C6: `add_data` is a no-op on an empty row list; when the computed
current hour label differs from the bucket's stored label it replaces the
bucket, dropping the old rows, before appending; it appends all incoming rows
in arrival order, so after an hour-label change the bucket contains only rows
added after the change. -/
theorem C6_theorem :
    (∀ (st : WriterState) (h : String), add_data st h [] = st) ∧
    (∀ (st : WriterState) (h : String) (data : List Row), data ≠ [] →
       st.current_hour ≠ some h → add_data st h data = ⟨st.namePfx, some h, data⟩) ∧
    (∀ (st : WriterState) (h : String) (data : List Row), data ≠ [] →
       st.current_hour = some h →
       add_data st h data = ⟨st.namePfx, some h, st.current_hour_data ++ data⟩) :=
  ⟨add_data_nil,
   fun st h data h1 h2 => add_data_new st h data h1 h2,
   fun st h data h1 h2 => add_data_same st h data h1 h2⟩

theorem C6_witness :
    add_data ⟨"p", some "h0", [[("a", "1")]]⟩ "h0" [] = ⟨"p", some "h0", [[("a", "1")]]⟩ ∧
    (([[("b", "2")]] : List Row) ≠ [] ∧
      (⟨"p", some "h0", [[("a", "1")]]⟩ : WriterState).current_hour ≠ some "h1" ∧
      add_data ⟨"p", some "h0", [[("a", "1")]]⟩ "h1" [[("b", "2")]]
        = ⟨"p", some "h1", [[("b", "2")]]⟩) ∧
    (([[("b", "2")]] : List Row) ≠ [] ∧
      (⟨"p", some "h0", [[("a", "1")]]⟩ : WriterState).current_hour = some "h0" ∧
      add_data ⟨"p", some "h0", [[("a", "1")]]⟩ "h0" [[("b", "2")]]
        = ⟨"p", some "h0", [[("a", "1")], [("b", "2")]]⟩) :=
  ⟨C6_theorem.1 _ _,
   ⟨by decide, by decide, C6_theorem.2.1 _ _ _ (by decide) (by decide)⟩,
   ⟨by decide, rfl, C6_theorem.2.2 _ _ _ (by decide) rfl⟩⟩

/-- Claim C7: for every bucket state, calling `get_current_csv_content` twice
in a row with no intervening `add_data` produces byte-identical output, and
neither call changes the bucket's rows or hour label.  The method is embedded
in state-passing form (any assignment to the instance would show up in the
returned state); the body performs none, so rendering is side-effect-free
and never clears the bucket. -/
theorem C7_theorem (st : WriterState) (renderErr : Bool) :
    (get_current_csv_content st renderErr).2 = st ∧
    (get_current_csv_content ((get_current_csv_content st renderErr).2) renderErr).1
      = (get_current_csv_content st renderErr).1 ∧
    ((get_current_csv_content st renderErr).2).current_hour_data = st.current_hour_data ∧
    ((get_current_csv_content st renderErr).2).current_hour = st.current_hour :=
  ⟨rfl, rfl, rfl, rfl⟩

/-- Claim C1, counterexample to the as-stated caching behaviour.  The claim
asserts the lookup step caches the filename-to-identifier result "including a
definitive not found".  Here the cache and the remote store are empty, so the
lookup queries the remote store and definitively finds nothing — yet it
leaves the cache without any entry for the filename, and an immediately
repeated lookup queries the remote store again instead of answering from the
cache. -/
theorem C1_counterexample :
    (find_existing_file [] [] "locness_data_20240101_00.csv").fileId = none ∧
    (find_existing_file [] [] "locness_data_20240101_00.csv").queried = true ∧
    (find_existing_file [] [] "locness_data_20240101_00.csv").file_cache = [] ∧
    (find_existing_file
        (find_existing_file [] [] "locness_data_20240101_00.csv").file_cache
        [] "locness_data_20240101_00.csv").queried = true := by
  decide

/-- Claim C1, amended: if `upload_or_update_csv` is called twice with the same
filename and different contents (the filename fresh for this run: not cached
and with no live remote object of that name), exactly one remote object with
that filename exists afterwards and its content is that of the second call.
The lookup caches only found identifiers — a definitive "not found" is not
cached — and the duplicate-free outcome is instead ensured because the create
path caches the newly assigned identifier, which the second call's lookup
then answers from. -/
theorem C1_theorem (st : DriveState) (c1 c2 filename : String)
    (hdiff : c1 ≠ c2)
    (hcache : st.file_cache.lookup filename = none)
    (hstore : st.store.filter (liveNamed filename) = []) :
    (((upload_or_update_csv
          (upload_or_update_csv st c1 filename false).2 c2 filename false).2).store).filter
        (liveNamed filename)
      = [⟨st.nextId, filename, c2, false⟩] := by
  have h1 : (upload_or_update_csv st c1 filename false).2
      = ⟨st.store ++ [⟨st.nextId, filename, c1, false⟩], st.nextId + 1,
         (filename, st.nextId) :: st.file_cache⟩ := by
    simp [upload_or_update_csv, find_existing_file, hcache, hstore]
  rw [h1]
  have h2 : List.lookup filename ((filename, st.nextId) :: st.file_cache)
      = some st.nextId := by
    simp [List.lookup]
  simp [upload_or_update_csv, find_existing_file, h2, List.filter_append,
    filter_map_setContent, hstore, setContent, liveNamed]

theorem C1_witness :
    (("x" : String) ≠ "y") ∧
    (([] : List (String × Nat)).lookup "f.csv" = none) ∧
    (([] : List RemoteFile).filter (liveNamed "f.csv") = []) ∧
    (((upload_or_update_csv (upload_or_update_csv ⟨[], 5, []⟩ "x" "f.csv" false).2
          "y" "f.csv" false).2).store.filter (liveNamed "f.csv")
      = [⟨5, "f.csv", "y", false⟩]) :=
  ⟨by decide, rfl, rfl, C1_theorem ⟨[], 5, []⟩ "x" "y" "f.csv" (by decide) rfl rfl⟩

/-- Claim C9: when shutdown is triggered while the bucket holds unflushed
rows, exactly one final sync call is made containing those rows (render the
current bucket, sync when non-empty) before the process reports stopped; if
the bucket is empty at shutdown, no sync call is made.  The event trace of
`stop` places the single sync attempt, carrying the rendered bucket, before
the stopped report, and the resulting state has `is_running = false`. -/
theorem C9_theorem (st : AppState) (currentHourLabel : String) (remoteErr : Bool) :
    (st.writer.current_hour_data ≠ [] →
       (stop st currentHourLabel false remoteErr).2
         = [Event.sync (to_csv st.writer.current_hour_data)
              (get_current_filename st.writer currentHourLabel),
            Event.stopped]) ∧
    (st.writer.current_hour_data = [] →
       (stop st currentHourLabel false remoteErr).2 = [Event.stopped]) ∧
    ((stop st currentHourLabel false remoteErr).1).is_running = false := by
  refine ⟨?_, ?_, ?_⟩
  · intro hne
    simp [stop, get_current_csv_content, write_hour_data, hne]
  · intro hemp
    simp [stop, get_current_csv_content, write_hour_data, hemp]
  · unfold stop
    cases h : (get_current_csv_content st.writer false).1 <;> simp

theorem C9_witness :
    exAppRows.writer.current_hour_data ≠ [] ∧
    (stop exAppRows "h" false false).2
      = [Event.sync (to_csv exAppRows.writer.current_hour_data)
           (get_current_filename exAppRows.writer "h"),
         Event.stopped] ∧
    exApp.writer.current_hour_data = [] ∧
    (stop exApp "h" false false).2 = [Event.stopped] :=
  ⟨by decide, (C9_theorem exAppRows "h" false).1 (by decide), rfl,
   (C9_theorem exApp "h" false).2.1 rfl⟩

/-- Claim C5: on every sync failure `upload_or_update_csv` returns an absent
identifier and leaves the remote store unmodified; the failure is absorbed by
the handler (the embedded function is total) so it is never fatal to the
loop; the accumulator bucket is not cleared by the failed tick; and the next
tick that fetches rows re-attempts the sync with the accumulated — now larger
— content (the rendered CSV of all previously buffered rows plus both ticks'
new rows). -/
theorem C5_theorem (st : AppState) (hourLabel oneHourAgo1 t1 oneHourAgo2 t2 : String)
    (pages1 pages2 : List ScanPage)
    (hh : st.writer.current_hour = some hourLabel)
    (hne1 : (get_new_data st.reader oneHourAgo1 t1 pages1).1 ≠ [])
    (hne2 :
      (get_new_data
        ((read_and_write_data st oneHourAgo1 t1 hourLabel pages1 false true).1).reader
        oneHourAgo2 t2 pages2).1 ≠ []) :
    (∀ (ds : DriveState) (c fn : String),
       (upload_or_update_csv ds c fn true).1 = none ∧
       ((upload_or_update_csv ds c fn true).2).store = ds.store) ∧
    ((read_and_write_data st oneHourAgo1 t1 hourLabel pages1 false true).1).drive.store
      = st.drive.store ∧
    ((read_and_write_data st oneHourAgo1 t1 hourLabel pages1 false true).1).writer.current_hour_data
      = st.writer.current_hour_data ++ (get_new_data st.reader oneHourAgo1 t1 pages1).1 ∧
    (read_and_write_data (read_and_write_data st oneHourAgo1 t1 hourLabel pages1 false true).1
        oneHourAgo2 t2 hourLabel pages2 false false).2
      = [⟨to_csv
            ((st.writer.current_hour_data
               ++ (get_new_data st.reader oneHourAgo1 t1 pages1).1)
              ++ (get_new_data
                   ((read_and_write_data st oneHourAgo1 t1 hourLabel pages1 false true).1).reader
                   oneHourAgo2 t2 pages2).1),
          st.writer.namePfx ++ "_" ++ hourLabel ++ ".csv"⟩] := by
  have hupl : ∀ (ds : DriveState) (c fn : String),
      upload_or_update_csv ds c fn true
        = (none, ⟨ds.store, ds.nextId,
            (find_existing_file ds.file_cache ds.store fn).file_cache⟩) := by
    intro ds c fn
    rfl
  rcases hfe1 : get_new_data st.reader oneHourAgo1 t1 pages1 with ⟨d1, r1⟩
  rw [hfe1] at hne1
  replace hne1 : d1 ≠ [] := hne1
  have hadd1 : add_data st.writer hourLabel d1
      = ⟨st.writer.namePfx, some hourLabel, st.writer.current_hour_data ++ d1⟩ :=
    add_data_same _ _ _ hne1 hh
  have happ1 : st.writer.current_hour_data ++ d1 ≠ [] := by
    simp [List.append_eq_nil, hne1]
  have hrender1 : write_hour_data ⟨st.writer.namePfx, some hourLabel,
      st.writer.current_hour_data ++ d1⟩ false
      = some (to_csv (st.writer.current_hour_data ++ d1)) := by
    simp [write_hour_data, happ1]
  have htick1 : read_and_write_data st oneHourAgo1 t1 hourLabel pages1 false true
      = (⟨r1, ⟨st.writer.namePfx, some hourLabel, st.writer.current_hour_data ++ d1⟩,
          ⟨st.drive.store, st.drive.nextId,
           (find_existing_file st.drive.file_cache st.drive.store
             (st.writer.namePfx ++ "_" ++ hourLabel ++ ".csv")).file_cache⟩,
          st.is_running⟩,
         [⟨to_csv (st.writer.current_hour_data ++ d1),
           st.writer.namePfx ++ "_" ++ hourLabel ++ ".csv"⟩]) := by
    simp [read_and_write_data, hfe1, hne1, hadd1, get_current_csv_content, hrender1,
      get_current_filename, hupl]
  refine ⟨fun ds c fn => ⟨by rw [hupl], by rw [hupl]⟩, ?_, ?_, ?_⟩
  · rw [htick1]
  · rw [htick1]
  · rw [htick1] at hne2 ⊢
    dsimp only at hne2 ⊢
    rcases hfe2 : get_new_data r1 oneHourAgo2 t2 pages2 with ⟨d2, r2⟩
    rw [hfe2] at hne2
    replace hne2 : d2 ≠ [] := hne2
    have hadd2 : add_data ⟨st.writer.namePfx, some hourLabel,
        st.writer.current_hour_data ++ d1⟩ hourLabel d2
        = ⟨st.writer.namePfx, some hourLabel,
           (st.writer.current_hour_data ++ d1) ++ d2⟩ :=
      add_data_same _ _ _ hne2 rfl
    have happ2 : st.writer.current_hour_data ++ (d1 ++ d2) ≠ [] :=
      fun hcon => hne2 (List.append_eq_nil.mp (List.append_eq_nil.mp hcon).2).2
    have hrender2 : write_hour_data ⟨st.writer.namePfx, some hourLabel,
        st.writer.current_hour_data ++ (d1 ++ d2)⟩ false
        = some (to_csv (st.writer.current_hour_data ++ (d1 ++ d2))) := by
      simp only [write_hour_data, if_neg happ2, Bool.false_eq_true, if_false]
    simp [read_and_write_data, hfe2, hne2, hadd2, get_current_csv_content, hrender2,
      get_current_filename]

theorem C5_witness :
    exApp.writer.current_hour = some "h" ∧
    (get_new_data exApp.reader "a" "d" exPages1).1 ≠ [] ∧
    (get_new_data ((read_and_write_data exApp "a" "d" "h" exPages1 false true).1).reader
        "a" "f" exPages2).1 ≠ [] ∧
    (read_and_write_data (read_and_write_data exApp "a" "d" "h" exPages1 false true).1
        "a" "f" "h" exPages2 false false).2
      = [⟨to_csv
            ((exApp.writer.current_hour_data
               ++ (get_new_data exApp.reader "a" "d" exPages1).1)
              ++ (get_new_data
                   ((read_and_write_data exApp "a" "d" "h" exPages1 false true).1).reader
                   "a" "f" exPages2).1),
          exApp.writer.namePfx ++ "_" ++ "h" ++ ".csv"⟩] :=
  ⟨rfl, by decide, by decide,
   (C5_theorem exApp "h" "a" "d" "a" "f" exPages1 exPages2 rfl (by decide)
     (by decide)).2.2.2⟩

/-- Claim C10 (implicit): when CSV serialization itself raises,
`get_current_csv_content` catches the error and returns absent — the same
result as for an empty bucket, so callers cannot distinguish a render failure
from no data; the writer state is unchanged by the call, and the driver tick
consequently makes no sync attempt, leaving the uploader state untouched
(the tick still appends the fetched rows to the bucket beforehand). -/
theorem C10_theorem (st : AppState) (w : WriterState)
    (oneHourAgo t hourLabel : String) (pages : List ScanPage) (remoteErr : Bool)
    (hwne : w.current_hour_data ≠ [])
    (hne : (get_new_data st.reader oneHourAgo t pages).1 ≠ []) :
    ((get_current_csv_content w true).1 = none ∧
     (get_current_csv_content w true).2 = w ∧
     (get_current_csv_content w true).1
       = (get_current_csv_content ⟨w.namePfx, w.current_hour, []⟩ false).1) ∧
    ((read_and_write_data st oneHourAgo t hourLabel pages true remoteErr).2 = [] ∧
     (read_and_write_data st oneHourAgo t hourLabel pages true remoteErr).1.drive
       = st.drive ∧
     (read_and_write_data st oneHourAgo t hourLabel pages true remoteErr).1.writer
       = add_data st.writer hourLabel (get_new_data st.reader oneHourAgo t pages).1) := by
  refine ⟨⟨write_hour_data_err w, rfl, ?_⟩, ?_⟩
  · simp [get_current_csv_content, write_hour_data_err, write_hour_data]
  · rcases hfe : get_new_data st.reader oneHourAgo t pages with ⟨d, r⟩
    rw [hfe] at hne
    replace hne : d ≠ [] := hne
    refine ⟨?_, ?_, ?_⟩ <;>
      simp [read_and_write_data, hfe, hne, get_current_csv_content, write_hour_data_err]

theorem C10_witness :
    exAppRows.writer.current_hour_data ≠ [] ∧
    (get_new_data exApp.reader "a" "d" exPages1).1 ≠ [] ∧
    (get_current_csv_content exAppRows.writer true).1 = none ∧
    (read_and_write_data exApp "a" "d" "h" exPages1 true false).2 = [] ∧
    (read_and_write_data exApp "a" "d" "h" exPages1 true false).1.writer
      = add_data exApp.writer "h" (get_new_data exApp.reader "a" "d" exPages1).1 :=
  ⟨by decide, by decide,
   (C10_theorem exApp exAppRows.writer "a" "d" "h" exPages1 false (by decide)
     (by decide)).1.1,
   (C10_theorem exApp exAppRows.writer "a" "d" "h" exPages1 false (by decide)
     (by decide)).2.1,
   (C10_theorem exApp exAppRows.writer "a" "d" "h" exPages1 false (by decide)
     (by decide)).2.2.2⟩

end Locness
